import Mathlib

/-!
Shallow embedding of the SCADA-Simulator process engine:
the signal generator (src/modules/signal_generator.py), the alarm logic
(src/modules/alarm_logic.py), the data logger (src/modules/data_logger.py)
and the dashboard state handled by src/main.py (buffers, sliding window,
statistics, reset).  Python floats are modelled as real numbers where the
code computes with `sin`, and as rationals where only field operations and
comparisons occur.  Fallible Python operations (division and `%` raise on
a zero divisor) are modelled with `Option`.
-/

namespace SCADA

/-! ## Signal generator (src/modules/signal_generator.py) -/

/-- State of `SignalGenerator.__init__`: amplitude, frequency, noise
standard deviation, offset and the waveform name (a string compared
against "Sine Wave" / "Square Wave" / "Sawtooth Wave"). -/
structure SignalGenerator where
  amplitude : ℝ
  frequency : ℝ
  noise : ℝ
  offset : ℝ
  signal_type : String

/-- Python float division: raises (here `none`) on a zero divisor. -/
noncomputable def pydiv (x y : ℝ) : Option ℝ :=
  if y = 0 then none else some (x / y)

/-- Python float `%`: `x % y = x - y * floor(x / y)`; raises on `y = 0`. -/
noncomputable def pymod (x y : ℝ) : Option ℝ :=
  if y = 0 then none else some (x - y * (Int.floor (x / y) : ℝ))

/-- Embedding of `SignalGenerator.get_analog_value`.  The single random
draw `np.random.normal(0, noise)` is passed in explicitly as `noise_draw`
(a draw with standard deviation 0 is exactly 0).  `np.sign` is `Real.sign`
(both return 0 at 0).  The sawtooth branch guards the period computation
exactly as the source does (`1.0 / frequency if frequency > 0 else 1.0`). -/
noncomputable def get_analog_value (g : SignalGenerator) (current_time : ℝ)
    (noise_draw : ℝ) : Option ℝ :=
  let base : Option ℝ :=
    if g.signal_type = "Sine Wave" then
      some (g.amplitude * Real.sin (2 * Real.pi * g.frequency * current_time))
    else if g.signal_type = "Square Wave" then
      some (g.amplitude * Real.sign (Real.sin (2 * Real.pi * g.frequency * current_time)))
    else if g.signal_type = "Sawtooth Wave" then
      (if g.frequency > 0 then pydiv 1 g.frequency else some 1).bind fun period =>
        (pymod current_time period).bind fun fraction_num =>
          (pydiv fraction_num period).bind fun fraction =>
            some (2 * g.amplitude * (fraction - 1/2))
    else some 0
  base.map fun b => g.offset + b + noise_draw

/-- Embedding of `SignalGenerator.get_digital_value`:
`1 if valoare_analogica > threshold else 0`. -/
noncomputable def get_digital_value (valoare_analogica : ℝ) (threshold : ℝ) : ℤ :=
  if valoare_analogica > threshold then 1 else 0

/-- Modelled from the spec: the manual/auto actuator dispatch of spec §4.3
(`digitalState(value, mode, manualFlag, threshold)`) is not present under
src — src/modules/ui_builder.py only declares the manual-mode checkbox and
the FORCE MOTOR button (their callbacks `toggle_manual_ui` and
`toggle_motor_manual` are absent), and src/modules/signal_generator.py
holds only the auto comparison.  Per the spec, manual mode ignores value
and threshold and returns the externally-set override flag verbatim; auto
mode is the source comparison `get_digital_value`. -/
noncomputable def digitalState (value : ℝ) (manual : Bool) (manualFlag : ℤ)
    (threshold : ℝ) : ℤ :=
  if manual then manualFlag else get_digital_value value threshold

/-! ## Alarm logic (src/modules/alarm_logic.py) -/

/-- State of `AlarmSystem.__init__`. -/
structure AlarmSystem where
  high_limit : ℚ
  low_limit : ℚ
  alarm_triggered : Bool
deriving DecidableEq

/-- Embedding of `AlarmSystem.check_status`: returns the updated object
state together with the returned tuple
`(is_alarm_active, status_message, color_code)`. -/
def check_status (a : AlarmSystem) (current_value : ℚ) :
    AlarmSystem × Bool × String × String :=
  if current_value ≥ a.high_limit then
    ({ a with alarm_triggered := true }, true, "CRITICAL: HIGH TEMP", "red")
  else if current_value ≤ a.low_limit then
    ({ a with alarm_triggered := true }, true, "WARNING: LOW TEMP", "orange")
  else
    ({ a with alarm_triggered := false }, false, "SYSTEM NORMAL", "green")

/-! ## Data logger (src/modules/data_logger.py) -/

/-- One row appended by `DataLogger.log_step` (the wall-clock column and
the decimal formatting are presentation; the logged values are kept). -/
structure LogRecord where
  timestamp : ℚ
  analog_val : ℚ
  digital_val : ℤ
  status_msg : String
deriving DecidableEq

/-- `DataLogger.log_step` appends one row to the sink. -/
def log_step (log : List LogRecord) (timestamp analog_val : ℚ)
    (digital_val : ℤ) (status_msg : String) : List LogRecord :=
  log ++ [⟨timestamp, analog_val, digital_val, status_msg⟩]

/-! ## Dashboard state (src/main.py) -/

/-- `np.max` over a nonempty list (the source only calls it when
`len > 0`; the empty case is given a harmless default). -/
def np_max (l : List ℚ) : ℚ :=
  match l with
  | [] => 0
  | x :: xs => xs.foldl max x

/-- `np.min` over a nonempty list. -/
def np_min (l : List ℚ) : ℚ :=
  match l with
  | [] => 0
  | x :: xs => xs.foldl min x

/-- `np.mean`: sum divided by length. -/
def np_mean (l : List ℚ) : ℚ :=
  l.sum / (l.length : ℚ)

/-- The `IndustrialDashboard` state touched by `update_process` and
`reset_simulation`: modules, flags, clock, window capacity, the four
parallel buffers, the three statistics labels and the log sink. -/
structure Dashboard where
  generator : SignalGenerator
  alarm_system : AlarmSystem
  is_running : Bool
  is_logging : Bool
  simulation_time : ℚ
  history_len : ℕ
  x_data : List ℚ
  y_analog : List ℚ
  y_digital : List ℤ
  alarm_threshold_line : List ℚ
  lbl_stat_max : ℚ
  lbl_stat_min : ℚ
  lbl_stat_avg : ℚ
  log : List LogRecord

/-- Embedding of step 5 of `IndustrialDashboard.update_process`
(src/main.py lines 216–237) for one tick whose sample is `(t, a, dg)`:
append to the four buffers, recompute the MAX/MIN/AVG labels over
`y_analog` when nonempty, then pop the front of every buffer when
`len(x_data) > history_len`. -/
def update_process_buffers (d : Dashboard) (t a : ℚ) (dg : ℤ) : Dashboard :=
  let x2 := d.x_data ++ [t]
  let ya2 := d.y_analog ++ [a]
  let yd2 := d.y_digital ++ [dg]
  let al2 := d.alarm_threshold_line ++ [d.alarm_system.high_limit]
  let d1 :=
    if 0 < ya2.length then
      { d with x_data := x2, y_analog := ya2, y_digital := yd2,
               alarm_threshold_line := al2,
               lbl_stat_max := np_max ya2, lbl_stat_min := np_min ya2,
               lbl_stat_avg := np_mean ya2 }
    else
      { d with x_data := x2, y_analog := ya2, y_digital := yd2,
               alarm_threshold_line := al2 }
  if d1.history_len < d1.x_data.length then
    { d1 with x_data := d1.x_data.tail, y_analog := d1.y_analog.tail,
              y_digital := d1.y_digital.tail,
              alarm_threshold_line := d1.alarm_threshold_line.tail }
  else d1

/-- Run `update_process_buffers` over a list of tick samples in order. -/
def run_ticks (d : Dashboard) (ticks : List (ℚ × ℚ × ℤ)) : Dashboard :=
  ticks.foldl (fun s tk => update_process_buffers s tk.1 tk.2.1 tk.2.2) d

/-- Embedding of `IndustrialDashboard.reset_simulation` (src/main.py
lines 271–303): zero the clock, clear the four buffers, reset the three
statistics labels, and append one `"SYSTEM RESET PERFORMED"` log row when
logging is active.  Canvas redraws are presentation and carry no state. -/
def reset_simulation (d : Dashboard) : Dashboard :=
  let d1 := { d with simulation_time := 0, x_data := [], y_analog := [],
                     y_digital := [], alarm_threshold_line := [],
                     lbl_stat_max := 0, lbl_stat_min := 0, lbl_stat_avg := 0 }
  if d.is_logging then
    { d1 with log := log_step d1.log 0 0 0 "SYSTEM RESET PERFORMED" }
  else d1

/-! ## Concrete states used by scenario claims -/

/-- Generator of the constant end-to-end scenario: amplitude 10,
frequency 0, zero noise, offset 20, sine waveform. -/
noncomputable def sine_flat : SignalGenerator := ⟨10, 0, 0, 20, "Sine Wave"⟩

/-- Square-wave generator with frequency 1, zero noise, offset 20. -/
noncomputable def g_square : SignalGenerator := ⟨10, 1, 0, 20, "Square Wave"⟩

/-- Sawtooth generator with frequency 0 (the guarded fallback case). -/
noncomputable def g_saw : SignalGenerator := ⟨10, 0, 0, 20, "Sawtooth Wave"⟩

/-- Dashboard with window capacity 3 and empty buffers, for the
[1,2,3,4] statistics scenario. -/
noncomputable def d_window3 : Dashboard :=
  ⟨sine_flat, ⟨18, -15, false⟩, true, false, 0, 3, [], [], [], [], 0, 0, 0, []⟩

/-- The [1,2,3,4] scenario: four ticks, one sample per tick, with analog
values 1, 2, 3, 4. -/
noncomputable def d_window3_final : Dashboard :=
  run_ticks d_window3 [(1, 1, 0), (2, 2, 0), (3, 3, 0), (4, 4, 0)]

/-- Dashboard with logging enabled and an empty log, for the reset
scenario. -/
noncomputable def d_log_on : Dashboard :=
  ⟨sine_flat, ⟨18, -15, false⟩, false, true, 5, 200, [], [], [], [], 0, 0, 0, []⟩

/-- Dashboard with window capacity 2 and empty buffers, for the FIFO
witness. -/
noncomputable def d_fifo : Dashboard :=
  ⟨sine_flat, ⟨18, -15, false⟩, true, false, 0, 2, [], [], [], [], 0, 0, 0, []⟩

/-! ## Helper lemmas about the buffer update -/

lemma upb_y_analog (d : Dashboard) (t a : ℚ) (dg : ℤ) :
    (update_process_buffers d t a dg).y_analog =
      if d.history_len < (d.x_data ++ [t]).length then (d.y_analog ++ [a]).tail
      else d.y_analog ++ [a] := by
  have h : 0 < (d.y_analog ++ [a]).length := by simp
  simp only [update_process_buffers, h, if_true]
  split <;> rfl

lemma upb_x_data (d : Dashboard) (t a : ℚ) (dg : ℤ) :
    (update_process_buffers d t a dg).x_data =
      if d.history_len < (d.x_data ++ [t]).length then (d.x_data ++ [t]).tail
      else d.x_data ++ [t] := by
  have h : 0 < (d.y_analog ++ [a]).length := by simp
  simp only [update_process_buffers, h, if_true]
  split <;> rfl

lemma upb_y_digital (d : Dashboard) (t a : ℚ) (dg : ℤ) :
    (update_process_buffers d t a dg).y_digital =
      if d.history_len < (d.x_data ++ [t]).length then (d.y_digital ++ [dg]).tail
      else d.y_digital ++ [dg] := by
  have h : 0 < (d.y_analog ++ [a]).length := by simp
  simp only [update_process_buffers, h, if_true]
  split <;> rfl

lemma upb_alarm_line (d : Dashboard) (t a : ℚ) (dg : ℤ) :
    (update_process_buffers d t a dg).alarm_threshold_line =
      if d.history_len < (d.x_data ++ [t]).length then
        (d.alarm_threshold_line ++ [d.alarm_system.high_limit]).tail
      else d.alarm_threshold_line ++ [d.alarm_system.high_limit] := by
  have h : 0 < (d.y_analog ++ [a]).length := by simp
  simp only [update_process_buffers, h, if_true]
  split <;> rfl

lemma upb_history_len (d : Dashboard) (t a : ℚ) (dg : ℤ) :
    (update_process_buffers d t a dg).history_len = d.history_len := by
  have h : 0 < (d.y_analog ++ [a]).length := by simp
  simp only [update_process_buffers, h, if_true]
  split <;> rfl

lemma slide_drop {α : Type} (l : List α) (x : α) (m : List α) (n : ℕ) :
    ((l ++ [x]).tail ++ m).drop n = (l ++ x :: m).drop (n + 1) := by
  cases l with
  | nil => simp
  | cons y ys => simp

/-- Closed form of the sliding buffer: folding ticks over synchronized
buffers of common length at most the capacity leaves, in `y_analog`,
exactly the most recent `history_len` analog values. -/
theorem run_ticks_y_analog (ticks : List (ℚ × ℚ × ℤ)) (d : Dashboard)
    (hx : d.x_data.length = d.y_analog.length)
    (hd : d.y_digital.length = d.y_analog.length)
    (ha : d.alarm_threshold_line.length = d.y_analog.length)
    (hc : d.y_analog.length ≤ d.history_len) :
    (run_ticks d ticks).y_analog =
      (d.y_analog ++ ticks.map fun tk => tk.2.1).drop
        (d.y_analog.length + ticks.length - d.history_len) := by
  induction ticks generalizing d with
  | nil => simp [run_ticks, Nat.sub_eq_zero_of_le hc]
  | cons tk rest ih =>
    have hrun : run_ticks d (tk :: rest) =
        run_ticks (update_process_buffers d tk.1 tk.2.1 tk.2.2) rest := rfl
    rw [hrun]
    have hL1 : (d.x_data ++ [tk.1]).length = d.y_analog.length + 1 := by simp [hx]
    have h5 := upb_history_len d tk.1 tk.2.1 tk.2.2
    by_cases hov : d.history_len < (d.x_data ++ [tk.1]).length
    · have hcap : d.y_analog.length = d.history_len := by
        rw [hL1] at hov; omega
      have h1 : (update_process_buffers d tk.1 tk.2.1 tk.2.2).y_analog
          = (d.y_analog ++ [tk.2.1]).tail := by rw [upb_y_analog, if_pos hov]
      have h2 : (update_process_buffers d tk.1 tk.2.1 tk.2.2).x_data
          = (d.x_data ++ [tk.1]).tail := by rw [upb_x_data, if_pos hov]
      have h3 : (update_process_buffers d tk.1 tk.2.1 tk.2.2).y_digital
          = (d.y_digital ++ [tk.2.2]).tail := by rw [upb_y_digital, if_pos hov]
      have h4 : (update_process_buffers d tk.1 tk.2.1 tk.2.2).alarm_threshold_line
          = (d.alarm_threshold_line ++ [d.alarm_system.high_limit]).tail := by
        rw [upb_alarm_line, if_pos hov]
      rw [ih _ (by simp [h1, h2, hx]) (by simp [h1, h3, hd])
          (by simp [h1, h4, ha]) (by simp [h1]; omega)]
      rw [h1, h5]
      simp only [List.map_cons]
      have e1 : (d.y_analog ++ [tk.2.1]).tail.length + rest.length - d.history_len
          = rest.length := by simp; omega
      have e2 : d.y_analog.length + (tk :: rest).length - d.history_len
          = rest.length + 1 := by simp only [List.length_cons]; omega
      rw [e1, e2]
      exact slide_drop _ _ _ _
    · have h1 : (update_process_buffers d tk.1 tk.2.1 tk.2.2).y_analog
          = d.y_analog ++ [tk.2.1] := by rw [upb_y_analog, if_neg hov]
      have h2 : (update_process_buffers d tk.1 tk.2.1 tk.2.2).x_data
          = d.x_data ++ [tk.1] := by rw [upb_x_data, if_neg hov]
      have h3 : (update_process_buffers d tk.1 tk.2.1 tk.2.2).y_digital
          = d.y_digital ++ [tk.2.2] := by rw [upb_y_digital, if_neg hov]
      have h4 : (update_process_buffers d tk.1 tk.2.1 tk.2.2).alarm_threshold_line
          = d.alarm_threshold_line ++ [d.alarm_system.high_limit] := by
        rw [upb_alarm_line, if_neg hov]
      rw [hL1] at hov
      rw [ih _ (by simp [h1, h2, hx]) (by simp [h1, h3, hd])
          (by simp [h1, h4, ha]) (by simp [h1]; omega)]
      rw [h1, h5]
      simp only [List.map_cons, List.append_assoc, List.singleton_append]
      congr 1
      simp only [List.length_append, List.length_cons, List.length_nil]
      omega

/-! ## Claim theorems -/

/-- C1 (counterexample): with historyLength = 3, after pushing analog
values [1,2,3,4] one per tick from empty buffers, the statistics the last
tick reports are computed before the FIFO eviction, over [1,2,3,4]: the
minimum label is 1 (not 2) and the mean label is 5/2 (not 3). -/
theorem window_stats_scenario_counterexample :
    d_window3_final.lbl_stat_min = 1 ∧ d_window3_final.lbl_stat_avg = 5/2 ∧
    d_window3_final.lbl_stat_min ≠ 2 ∧ d_window3_final.lbl_stat_avg ≠ 3 := by
  refine ⟨?_, ?_, ?_, ?_⟩ <;>
    norm_num [d_window3_final, run_ticks, d_window3, update_process_buffers,
      np_max, np_min, np_mean, max_def, min_def]

/-- C1 (amended): in the historyLength = 3 scenario pushing analog values
[1,2,3,4], the last tick computes its statistics after appending the new
sample but before the front eviction, so they cover [1,2,3,4]:
max = 4, min = 1, mean = 5/2; the window left after the tick is [2,3,4]. -/
theorem window_stats_scenario :
    d_window3_final.lbl_stat_max = 4 ∧ d_window3_final.lbl_stat_min = 1 ∧
    d_window3_final.lbl_stat_avg = 5/2 ∧ d_window3_final.y_analog = [2, 3, 4] := by
  refine ⟨?_, ?_, ?_, ?_⟩ <;>
    norm_num [d_window3_final, run_ticks, d_window3, update_process_buffers,
      np_max, np_min, np_mean, max_def, min_def]

/-- C2 (counterexample): for the square waveform with zero noise the
output is not always `offset ± amplitude`: at a zero crossing of the sine
(here frequency 1 at time 0) `np.sign` returns 0 and the output is the
offset itself, 20, which differs from 20 + 10 and from 20 - 10. -/
theorem square_wave_offset_counterexample :
    get_analog_value g_square 0 0 = some 20 ∧
    (20:ℝ) ≠ 20 + 10 ∧ (20:ℝ) ≠ 20 - 10 := by
  refine ⟨?_, by norm_num, by norm_num⟩
  simp [get_analog_value, g_square, Real.sign_zero]

/-- C2 (amended): with zero noise the square output is
`offset + amplitude * sign(sin(2π f t))` where `sign 0 = 0`: it equals
offset + amplitude when the sine is positive, offset - amplitude when it
is negative, and exactly the offset when the sine is zero. -/
theorem square_wave_sign_cases (g : SignalGenerator) (t : ℝ)
    (h : g.signal_type = "Square Wave") :
    (0 < Real.sin (2 * Real.pi * g.frequency * t) →
      get_analog_value g t 0 = some (g.offset + g.amplitude)) ∧
    (Real.sin (2 * Real.pi * g.frequency * t) < 0 →
      get_analog_value g t 0 = some (g.offset - g.amplitude)) ∧
    (Real.sin (2 * Real.pi * g.frequency * t) = 0 →
      get_analog_value g t 0 = some g.offset) := by
  have hne : g.signal_type ≠ "Sine Wave" := by rw [h]; decide
  refine ⟨fun hs => ?_, fun hs => ?_, fun hs => ?_⟩ <;>
    simp [get_analog_value, hne, h, Real.sign_of_pos, Real.sign_of_neg, hs,
      Real.sign_zero] <;> ring

/-- C2 (witness): the amended theorem applied to the frequency-1 square
generator at time 0, where the sine is zero, yields the offset 20. -/
theorem square_wave_sign_cases_witness :
    get_analog_value g_square 0 0 = some g_square.offset := by
  have hs : Real.sin (2 * Real.pi * g_square.frequency * 0) = 0 := by simp
  exact (square_wave_sign_cases g_square 0 rfl).2.2 hs

/-- C3 (counterexample): a reset with logging enabled appends exactly one
record with time 0, analog 0, digital 0 — but its status text is
"SYSTEM RESET PERFORMED", not "SYSTEM RESET". -/
theorem reset_log_status_counterexample :
    (reset_simulation d_log_on).log = [⟨0, 0, 0, "SYSTEM RESET PERFORMED"⟩] ∧
    "SYSTEM RESET PERFORMED" ≠ "SYSTEM RESET" := by
  constructor
  · simp [reset_simulation, d_log_on, log_step]
  · decide

/-- C3 (amended): when a reset is performed while logging is enabled,
exactly one log record is appended, with simulation time 0, analog value
0, digital value 0 and status text "SYSTEM RESET PERFORMED". -/
theorem reset_appends_one_record (d : Dashboard) (h : d.is_logging = true) :
    (reset_simulation d).log = d.log ++ [⟨0, 0, 0, "SYSTEM RESET PERFORMED"⟩] := by
  simp [reset_simulation, h, log_step]

/-- C3 (witness): the amended theorem applied to a dashboard with logging
enabled and an empty log. -/
theorem reset_appends_one_record_witness :
    (reset_simulation d_log_on).log
      = d_log_on.log ++ [⟨0, 0, 0, "SYSTEM RESET PERFORMED"⟩] :=
  reset_appends_one_record d_log_on rfl

/-- C4: in manual mode the actuator logic ignores the analog value and
the threshold entirely and returns the externally-set override flag
verbatim; in particular override 1 gives 1 and override 0 gives 0
(spec-modelled `digitalState`, see its doc). -/
theorem manual_mode_returns_override (value threshold : ℝ) (flag : ℤ) :
    digitalState value true flag threshold = flag ∧
    digitalState value true 1 threshold = 1 ∧
    digitalState value true 0 threshold = 0 := by
  refine ⟨?_, ?_, ?_⟩ <;> simp [digitalState]

/-- C5: `check_status` returns Critical ("CRITICAL: HIGH TEMP") whenever
`v >= high_limit` — with precedence over the low check, no ordering of the
thresholds assumed — Warning ("WARNING: LOW TEMP") when `v <= low_limit`
and `v < high_limit`, and Normal ("SYSTEM NORMAL") when
`low_limit < v < high_limit`. -/
theorem check_status_classification (a : AlarmSystem) (v : ℚ) :
    (a.high_limit ≤ v → (check_status a v).2.2.1 = "CRITICAL: HIGH TEMP") ∧
    (v ≤ a.low_limit → v < a.high_limit →
      (check_status a v).2.2.1 = "WARNING: LOW TEMP") ∧
    (a.low_limit < v → v < a.high_limit →
      (check_status a v).2.2.1 = "SYSTEM NORMAL") := by
  refine ⟨fun h1 => ?_, fun h1 h2 => ?_, fun h1 h2 => ?_⟩
  · simp [check_status, h1]
  · simp [check_status, h1, not_le.mpr h2]
  · simp [check_status, not_le.mpr h1, not_le.mpr h2]

/-- C5 (witness): the classification theorem applied at the boundary
`v = high_limit` (Critical), below the low limit (Warning), and strictly
between (Normal), for thresholds high = 18, low = -15. -/
theorem check_status_classification_witness :
    (check_status ⟨18, -15, false⟩ 18).2.2.1 = "CRITICAL: HIGH TEMP" ∧
    (check_status ⟨18, -15, false⟩ (-20)).2.2.1 = "WARNING: LOW TEMP" ∧
    (check_status ⟨18, -15, false⟩ 0).2.2.1 = "SYSTEM NORMAL" :=
  ⟨(check_status_classification ⟨18, -15, false⟩ 18).1 (by norm_num),
   (check_status_classification ⟨18, -15, false⟩ (-20)).2.1 (by norm_num) (by norm_num),
   (check_status_classification ⟨18, -15, false⟩ 0).2.2 (by norm_num) (by norm_num)⟩

/-- C6: in auto mode the output is 1 iff the analog value is strictly
greater than the threshold (equality yields 0); with the constant sine
scenario (amplitude 10, frequency 0, offset 20, zero noise) the analog
value is exactly 20 at every time, so against threshold 20 the digital
value is 0 forever. -/
theorem auto_mode_strict_threshold :
    (∀ v threshold : ℝ, get_digital_value v threshold = 1 ↔ threshold < v) ∧
    (∀ threshold : ℝ, get_digital_value threshold threshold = 0) ∧
    (∀ t : ℝ, get_analog_value sine_flat t 0 = some 20) ∧
    (∀ t v : ℝ, get_analog_value sine_flat t 0 = some v →
      get_digital_value v 20 = 0) := by
  have hval : ∀ t : ℝ, get_analog_value sine_flat t 0 = some 20 := by
    intro t
    simp [get_analog_value, sine_flat]
  refine ⟨fun v threshold => ?_, fun threshold => ?_, hval, fun t v hv => ?_⟩
  · simp [get_digital_value]
  · simp [get_digital_value]
  · rw [hval t] at hv
    have : v = (20:ℝ) := (Option.some_inj.mp hv).symm
    simp [get_digital_value, this]

/-- C6 (witness): the theorem applied at value 25 against threshold 20
(output 1), at the equality point 20 (output 0), and to the constant
scenario at time 3. -/
theorem auto_mode_strict_threshold_witness :
    get_digital_value 25 20 = 1 ∧ get_digital_value 20 20 = 0 ∧
    get_analog_value sine_flat 3 0 = some 20 :=
  ⟨(auto_mode_strict_threshold.1 25 20).mpr (by norm_num),
   auto_mode_strict_threshold.2.1 20,
   auto_mode_strict_threshold.2.2.1 3⟩

/-- C7: pushing `history_len + k` samples (k > 0), one per tick, into a
dashboard whose buffers start empty leaves a window of length exactly
`history_len` holding exactly the last `history_len` pushed analog values
in push order (strict FIFO eviction from the front). -/
theorem window_fifo_last_samples (d : Dashboard) (ticks : List (ℚ × ℚ × ℤ))
    (k : ℕ) (h0x : d.x_data = []) (h0a : d.y_analog = []) (h0d : d.y_digital = [])
    (h0l : d.alarm_threshold_line = []) (hk : 0 < k)
    (hn : ticks.length = d.history_len + k) :
    (run_ticks d ticks).y_analog = (ticks.map fun tk => tk.2.1).drop k ∧
    (run_ticks d ticks).y_analog.length = d.history_len := by
  have main := run_ticks_y_analog ticks d (by simp [h0x, h0a]) (by simp [h0d, h0a])
      (by simp [h0l, h0a]) (by simp [h0a])
  rw [h0a] at main
  simp only [List.nil_append, List.length_nil, Nat.zero_add] at main
  have hidx : ticks.length - d.history_len = k := by omega
  rw [hidx] at main
  refine ⟨main, ?_⟩
  rw [main]
  simp only [List.length_drop, List.length_map]
  omega

/-- C7 (witness): capacity 2, three pushed samples with analog values
[5, 6, 7]; the window ends as [6, 7] with length 2. -/
theorem window_fifo_last_samples_witness :
    (run_ticks d_fifo [(1, 5, 0), (2, 6, 1), (3, 7, 0)]).y_analog = [6, 7] ∧
    (run_ticks d_fifo [(1, 5, 0), (2, 6, 1), (3, 7, 0)]).y_analog.length = 2 := by
  have h := window_fifo_last_samples d_fifo [(1, 5, 0), (2, 6, 1), (3, 7, 0)] 1
    rfl rfl rfl rfl (by norm_num) rfl
  constructor
  · rw [h.1]
    simp
  · rw [h.2]
    rfl

/-- C8: `reset_simulation` zeroes the clock and empties all four window
buffers, while leaving the generator state (amplitude, frequency, offset,
noise, waveform), the alarm thresholds and the running/paused flag
exactly as they were. -/
theorem reset_frame_conditions (d : Dashboard) :
    (reset_simulation d).simulation_time = 0 ∧
    (reset_simulation d).x_data = [] ∧
    (reset_simulation d).y_analog = [] ∧
    (reset_simulation d).y_digital = [] ∧
    (reset_simulation d).alarm_threshold_line = [] ∧
    (reset_simulation d).generator = d.generator ∧
    (reset_simulation d).alarm_system = d.alarm_system ∧
    (reset_simulation d).is_running = d.is_running := by
  by_cases h : d.is_logging <;> simp [reset_simulation, h]

/-- C9: sampling the sawtooth waveform never raises from any frequency:
every division the branch performs has a nonzero divisor, and for
`frequency <= 0` the source substitutes the fallback period 1, giving the
defined value `offset + 2 * amplitude * ((t - floor t) - 1/2) + noise`. -/
theorem sawtooth_total_no_div_by_zero (g : SignalGenerator) (t nd : ℝ)
    (h : g.signal_type = "Sawtooth Wave") :
    (get_analog_value g t nd).isSome = true ∧
    (g.frequency ≤ 0 → get_analog_value g t nd
      = some (g.offset + 2 * g.amplitude * ((t - (Int.floor t : ℝ)) - 1/2) + nd)) := by
  have hne : g.signal_type ≠ "Sine Wave" := by rw [h]; decide
  have hne2 : g.signal_type ≠ "Square Wave" := by rw [h]; decide
  constructor
  · rcases lt_or_le 0 g.frequency with hf | hf
    · simp [get_analog_value, hne, hne2, h, hf, pydiv, pymod, ne_of_gt hf,
        one_div, inv_eq_zero, ne_of_gt (inv_pos.mpr hf)]
    · simp [get_analog_value, hne, hne2, h, not_lt.mpr hf, pydiv, pymod]
  · intro hf
    simp [get_analog_value, hne, hne2, h, not_lt.mpr hf, pydiv, pymod]

/-- C9 (witness): the totality theorem applied to the frequency-0
sawtooth generator at time 0: the call returns a value, and the fallback
formula evaluates to offset - amplitude = 10. -/
theorem sawtooth_total_no_div_by_zero_witness :
    (get_analog_value g_saw 0 0).isSome = true ∧
    get_analog_value g_saw 0 0 = some 10 := by
  have h := sawtooth_total_no_div_by_zero g_saw 0 0 rfl
  refine ⟨h.1, ?_⟩
  have h2 := h.2 (by norm_num [g_saw])
  rw [h2]
  norm_num [g_saw]

/-- C10: after every call, the stored `alarm_triggered` flag equals the
returned `is_alarm` boolean, which is true exactly when the returned
status message is the Critical or the Warning text and false exactly when
it is the Normal text. -/
theorem alarm_flag_mirrors_result (a : AlarmSystem) (v : ℚ) :
    ((check_status a v).1.alarm_triggered = (check_status a v).2.1) ∧
    ((check_status a v).2.1
      = (((check_status a v).2.2.1 == "CRITICAL: HIGH TEMP")
         || ((check_status a v).2.2.1 == "WARNING: LOW TEMP"))) ∧
    ((!(check_status a v).2.1) = ((check_status a v).2.2.1 == "SYSTEM NORMAL")) := by
  simp only [check_status]
  split
  · simp
  · split <;> simp

end SCADA
